import Mathlib

/-!
Verification of the NIFTY A-Day trading alert system's core pipeline:
day classifier, safety filter, expiry-momentum detector, confidence
scorer, signal aggregator and strategy engine.

Numbers are modelled as exact rationals (`ℚ`).  Timestamps are passed
explicitly: `today` is the current calendar-day string, `now`/`Clock`
carries the epoch-milliseconds and the minutes-since-midnight that the
source reads from the wall clock.  Presentation-only strings built with
`toFixed` number formatting (log lines, reason detail texts of the
confidence scorer, the formatted `data` block of the day classifier)
are outside the model; every field and branch that feeds a decision is
kept.
-/

namespace Demo

/-- OHLCV candle, as supplied by the external market-data feed. -/
structure Candle where
  open_ : ℚ
  high : ℚ
  low : ℚ
  close : ℚ
  volume : ℚ
deriving Repr, DecidableEq

/-- Candle direction classification used by the day classifier. -/
inductive CandleDir where
  | BULLISH
  | BEARISH
deriving Repr, DecidableEq

/-- Body ratio = |close − open| / (high − low), 0 when the range is 0
(`calculateBodyRatio` in the day classifier module). -/
def calculateBodyRatio (c : Candle) : ℚ :=
  let range := c.high - c.low
  if range = 0 then 0
  else |c.close - c.open_| / range

/-- Candle range = high − low (`calculateRange`). -/
def calculateRange (c : Candle) : ℚ :=
  c.high - c.low

/-- Direction of a candle: BULLISH when close ≥ open, else BEARISH
(`getCandleDirection`). -/
def getCandleDirection (c : Candle) : CandleDir :=
  if c.close ≥ c.open_ then .BULLISH else .BEARISH

/-- Result of an A-Day check: the decision fields of the object built by
`checkADay` / `checkADayMock` (the formatted `reason`/`data` strings are
presentation only and derived from these fields). -/
structure ADayResult where
  isADay : Bool
  direction : Option CandleDir
  bodyRatio : ℚ
  range : ℚ
  volumeRatio : ℚ
deriving Repr, DecidableEq

/-- A-Day classification of a daily candle against the trailing average
volume: the computation shared by `checkADay` and `checkADayMock`. -/
def checkADayMock (mockCandle : Candle) (mockAvgVolume : ℚ) : ADayResult :=
  let bodyRatio := calculateBodyRatio mockCandle
  let range := calculateRange mockCandle
  let direction := getCandleDirection mockCandle
  let volumeRatio := mockCandle.volume / mockAvgVolume
  let isBodyStrong := bodyRatio ≥ 0.6
  let isRangeStrong := range ≥ 100
  let isVolumeStrong := volumeRatio ≥ 1.0
  let isADay := isBodyStrong && isRangeStrong && isVolumeStrong
  { isADay := isADay
    direction := if isADay then some direction else none
    bodyRatio := bodyRatio
    range := range
    volumeRatio := volumeRatio }

/-- Module-level cache of the day classifier: `todayADayStatus` and
`lastCheckDate`. -/
structure ADayCache where
  lastCheckDate : Option String
  todayADayStatus : Option ADayResult
deriving Repr, DecidableEq

/-- Cached A-Day check (`checkADay`): if `lastCheckDate === today` and a
status is cached, return it without recomputation; otherwise classify the
previous-day candle `prevCandle` against `avgVolume` and cache the result
under `today`. -/
def checkADay (cache : ADayCache) (today : String) (prevCandle : Candle)
    (avgVolume : ℚ) : ADayCache × ADayResult :=
  match cache.lastCheckDate, cache.todayADayStatus with
  | some d, some r =>
      if d = today then (cache, r)
      else
        let r := checkADayMock prevCandle avgVolume
        ({ lastCheckDate := some today, todayADayStatus := some r }, r)
  | _, _ =>
      let r := checkADayMock prevCandle avgVolume
      ({ lastCheckDate := some today, todayADayStatus := some r }, r)

/-- Cached A-Day lookup (`getADayStatus`): return the cached status when
fresh, otherwise fall through to `checkADay`. -/
def getADayStatus (cache : ADayCache) (today : String) (prevCandle : Candle)
    (avgVolume : ℚ) : ADayCache × ADayResult :=
  match cache.lastCheckDate, cache.todayADayStatus with
  | some d, some r =>
      if d = today then (cache, r)
      else checkADay cache today prevCandle avgVolume
  | _, _ => checkADay cache today prevCandle avgVolume

/-- Signal direction: BUY_CE (buy call) or BUY_PE (buy put). -/
inductive Direction where
  | BUY_CE
  | BUY_PE
deriving Repr, DecidableEq

/-- Render a direction the way the source interpolates it into reason
strings. -/
def dirToString : Direction → String
  | .BUY_CE => "BUY_CE"
  | .BUY_PE => "BUY_PE"

/-- A trade record pushed by `recordTrade` (the `time` field is the
timestamp the filter attaches on receipt). -/
structure TradeRecord where
  direction : Direction
  pnl : ℚ
  strategy : String
  time : ℤ
deriving Repr, DecidableEq

/-- Trade details passed into `recordTrade`. -/
structure TradeInput where
  direction : Direction
  pnl : ℚ
  strategy : String
deriving Repr, DecidableEq

/-- The safety filter's day-scoped module state (`dailyState`). -/
structure DailyState where
  date : Option String
  sentCE : Bool
  sentPE : Bool
  totalLoss : ℚ
  trades : List TradeRecord
  lastSignalTime : Option ℤ
  isLocked : Bool
deriving Repr, DecidableEq

/-- Lookup of `dailyState.signalsSent[direction]`. -/
def DailyState.getSent (s : DailyState) : Direction → Bool
  | .BUY_CE => s.sentCE
  | .BUY_PE => s.sentPE

/-- Fresh per-day state (`resetDailyState`). -/
def resetDailyState (today : String) : DailyState :=
  { date := some today
    sentCE := false
    sentPE := false
    totalLoss := 0
    trades := []
    lastSignalTime := none
    isLocked := false }

/-- Roll the state over when the stored date is not today
(`ensureTodayState`). -/
def ensureTodayState (s : DailyState) (today : String) : DailyState :=
  if s.date = some today then s else resetDailyState today

/-- Default `config.trading.maxLossPerTrade` (env `MAX_LOSS_PER_TRADE`
unset). -/
def maxLossPerTrade : ℚ := 300000

/-- Has a signal already been sent in this direction today
(`hasSignalBeenSent`)? -/
def hasSignalBeenSent (d : Direction) (s : DailyState) (today : String) : Bool :=
  (ensureTodayState s today).getSent d

/-- Mark a direction as sent and stamp `lastSignalTime`
(`markSignalSent`). -/
def markSignalSent (d : Direction) (s : DailyState) (now : ℤ)
    (today : String) : DailyState :=
  let s := ensureTodayState s today
  match d with
  | .BUY_CE => { s with sentCE := true, lastSignalTime := some now }
  | .BUY_PE => { s with sentPE := true, lastSignalTime := some now }

/-- Record a trade; a negative `pnl` adds its absolute value to the
cumulative daily loss (`recordTrade`). -/
def recordTrade (t : TradeInput) (s : DailyState) (now : ℤ)
    (today : String) : DailyState :=
  let s := ensureTodayState s today
  let s := { s with
    trades := s.trades ++
      [{ direction := t.direction, pnl := t.pnl, strategy := t.strategy,
         time := now }] }
  if t.pnl < 0 then { s with totalLoss := s.totalLoss + |t.pnl| } else s

/-- Has the cumulative daily loss reached the cap (`isMaxLossHit`)? -/
def isMaxLossHit (s : DailyState) (today : String) : Bool :=
  (ensureTodayState s today).totalLoss ≥ maxLossPerTrade

/-- Manually lock trading for the day (`lockTrading`). -/
def lockTrading (s : DailyState) (today : String) : DailyState :=
  { ensureTodayState s today with isLocked := true }

/-- Manually unlock trading (`unlockTrading`). -/
def unlockTrading (s : DailyState) (today : String) : DailyState :=
  { ensureTodayState s today with isLocked := false }

/-- Is trading locked (`isTradingLocked`)? -/
def isTradingLocked (s : DailyState) (today : String) : Bool :=
  (ensureTodayState s today).isLocked

/-- Fixed per-strategy validation windows of the safety filter, in
minutes since midnight: ORB 09:30–10:30, PULLBACK 10:15–13:30,
EXPIRY 11:00–14:00 (`isWithinStrategyTimeWindow`'s table); an unknown
strategy key has no window. -/
def strategyTimeWindows (strategy : String) : Option (ℕ × ℕ) :=
  if strategy = "ORB" then some (570, 630)
  else if strategy = "PULLBACK" then some (615, 810)
  else if strategy = "EXPIRY" then some (660, 840)
  else none

/-- Window check of `isWithinTimeWindow`: inclusive on both ends. -/
def isWithinStrategyTimeWindow (strategy : String) (nowMin : ℕ) : Bool :=
  match strategyTimeWindows strategy with
  | none => false
  | some (s, e) => s ≤ nowMin && nowMin ≤ e

/-- First word of the strategy name, uppercased —
`signal.strategy.split(' ')[0].toUpperCase()`. -/
def firstWordUpper (s : String) : String :=
  String.mk ((s.toList.takeWhile (fun c => c ≠ ' ')).map Char.toUpper)

/-- Wall-clock instant: epoch milliseconds (`Date.now()`) and minutes
since midnight IST (what `isWithinTimeWindow` reads). -/
structure Clock where
  ms : ℤ
  minOfDay : ℕ
deriving Repr, DecidableEq

/-- The signal handed to `validateSignal`. -/
structure SignalInput where
  direction : Direction
  strategy : String
deriving Repr, DecidableEq

/-- Outcome of `validateSignal`. -/
structure ValidationResult where
  isValid : Bool
  reason : String
deriving Repr, DecidableEq

/-- Minimum gap between any two signals: 5 minutes in milliseconds. -/
def minSignalGapMs : ℤ := 5 * 60 * 1000

/-- Run all safety checks in order (`validateSignal`): lock, max loss,
duplicate direction, strategy time window, minimum gap since the last
signal.  Returns the post-call module state together with the verdict. -/
def validateSignal (sig : SignalInput) (s : DailyState) (clock : Clock)
    (today : String) : DailyState × ValidationResult :=
  let s := ensureTodayState s today
  if s.isLocked then
    (s, { isValid := false, reason := "Trading is locked for the day" })
  else if s.totalLoss ≥ maxLossPerTrade then
    (s, { isValid := false, reason := "Max daily loss hit" })
  else if s.getSent sig.direction then
    (s, { isValid := false,
          reason := "Signal already sent for " ++ dirToString sig.direction })
  else
    let strategyKey := firstWordUpper sig.strategy
    if ¬ isWithinStrategyTimeWindow strategyKey clock.minOfDay then
      (s, { isValid := false,
            reason := "Outside time window for " ++ strategyKey })
    else
      match s.lastSignalTime with
      | some t =>
          if clock.ms - t < minSignalGapMs then
            (s, { isValid := false, reason := "Too soon after last signal" })
          else (s, { isValid := true, reason := "Signal validated" })
      | none => (s, { isValid := true, reason := "Signal validated" })

/-- Average volume of a candle list; 0 for the empty list
(`calculateAvgVolume`). -/
def calculateAvgVolume (candles : List Candle) : ℚ :=
  if candles.isEmpty then 0
  else (candles.map (·.volume)).sum / candles.length

/-- Minimum of a value list (`Math.min(...)`); only applied to the three
recent candles, so the empty-list default is never reached. -/
def listMin (l : List ℚ) : ℚ :=
  match l with
  | [] => 0
  | h :: t => t.foldl min h

/-- Maximum of a value list (`Math.max(...)`). -/
def listMax (l : List ℚ) : ℚ :=
  match l with
  | [] => 0
  | h :: t => t.foldl max h

/-- Default candle used only to name the last element of a list already
known to be non-empty. -/
def defaultCandle : Candle :=
  { open_ := 0, high := 0, low := 0, close := 0, volume := 0 }

/-- An expiry-momentum signal object as built by `checkMomentumMock`
(the `volumeSpike`/`movePoints` percent strings are kept numerically). -/
structure ExpirySignal where
  strategy : String
  direction : Direction
  signal : Direction
  spotPrice : ℚ
  volumeRatio : ℚ
  movePoints : ℚ
  stopLoss : ℚ
deriving Repr, DecidableEq

/-- The expiry-day momentum check on explicit data (`checkMomentumMock`):
needs ≥ 3 candles, a 3-candle average volume at ≥ 1.5× the baseline, all
three candles sharing one open/close direction, and a net move of ≥ 50
points; otherwise the whole result is `none` — no reason list exists on
the null path. -/
def checkMomentumMock (mockCandles : List Candle) (mockBaseline : ℚ) :
    Option ExpirySignal :=
  if mockCandles.length < 3 then none
  else
    let recentCandles := mockCandles.drop (mockCandles.length - 3)
    let latestCandle := recentCandles.getLastD defaultCandle
    let recentAvgVolume := calculateAvgVolume recentCandles
    let volumeRatio := if mockBaseline > 0 then recentAvgVolume / mockBaseline else 0
    if volumeRatio < 1.5 then none
    else
      let allBullish := recentCandles.all (fun c => c.close > c.open_)
      let allBearish := recentCandles.all (fun c => c.close < c.open_)
      if ¬ allBullish ∧ ¬ allBearish then none
      else
        let moveStart := (recentCandles.headD defaultCandle).open_
        let moveEnd := latestCandle.close
        let totalMove := |moveEnd - moveStart|
        if totalMove < 50 then none
        else if allBullish then
          some { strategy := "EXPIRY MOMENTUM", direction := .BUY_CE,
                 signal := .BUY_CE, spotPrice := latestCandle.close,
                 volumeRatio := volumeRatio, movePoints := totalMove,
                 stopLoss := listMin (recentCandles.map (·.low)) }
        else
          some { strategy := "EXPIRY MOMENTUM", direction := .BUY_PE,
                 signal := .BUY_PE, spotPrice := latestCandle.close,
                 volumeRatio := volumeRatio, movePoints := totalMove,
                 stopLoss := listMax (recentCandles.map (·.high)) }

/-- Status of a reason entry. -/
inductive ReasonStatus where
  | pass
  | fail
  | neutral
deriving Repr, DecidableEq

/-- A reason entry `{factor, status, detail}`. -/
structure Reason where
  factor : String
  status : ReasonStatus
  detail : String
deriving Repr, DecidableEq

/-- A detector result as consumed by the scorer and aggregator; the
nested `data` object is kept as its two consumed fields `spotPrice` and
`stopLoss`. -/
structure StrategyResult where
  strategyName : String
  signal : Option Direction
  score : ℚ
  reasons : List Reason
  spotPrice : Option ℚ
  stopLoss : Option ℚ
deriving Repr, DecidableEq

/-- A-Day status as consumed by the scorer (`{ isADay, direction }`). -/
structure ADayStatus where
  isADay : Bool
  direction : Option CandleDir
deriving Repr, DecidableEq

/-- Open-interest analysis input of the scorer; `none` stands for the
empty object `{}`.  Each numeric field is optional because the source
tests it for truthiness before use. -/
structure OIData where
  pcrRatio : Option ℚ
  maxPain : Option ℚ
  spotPrice : Option ℚ
  oiBuildUp : Bool
deriving Repr, DecidableEq

/-- JavaScript truthiness of an optional number: present and non-zero. -/
def qTruthy : Option ℚ → Bool
  | none => false
  | some x => decide (x ≠ 0)

/-- Uppercase a string character-wise (`toUpperCase`). -/
def strUpper (s : String) : String :=
  String.mk (s.toList.map Char.toUpper)

/-- Whether the first list starts with the second. -/
def seqStartsWith : List Char → List Char → Bool
  | _, [] => true
  | [], _ :: _ => false
  | c :: cs, p :: ps => c = p && seqStartsWith cs ps

/-- Whether the first list has the second as a contiguous subsequence
(`String.prototype.includes`). -/
def seqContains : List Char → List Char → Bool
  | [], pat => pat.isEmpty
  | c :: t, pat => seqStartsWith (c :: t) pat || seqContains t pat

/-- Substring test on strings. -/
def strIncludes (s pat : String) : Bool :=
  seqContains s.toList pat.toList

/-- Map a strategy name to its scoring category (`getCategoryKey`). -/
def getCategoryKey (strategyName : String) : Option String :=
  let name := strUpper strategyName
  if strIncludes name "VWAP" then some "vwapConfirmation"
  else if strIncludes name "S/R" || strIncludes name "SUPPORT" ||
      strIncludes name "RESISTANCE" then some "srBreakout"
  else if strIncludes name "DAY" && strIncludes name "BEHAVIOR" then
    some "dayBehavior"
  else if strIncludes name "ORB" then some "orbBreakout"
  else if strIncludes name "PULLBACK" then some "pullbackContinuation"
  else if strIncludes name "EXPIRY" || strIncludes name "MOMENTUM" then
    some "expiryMomentum"
  else none

/-- A-Day alignment category (`scoreAdayAlignment`): 0 when the prior day
was not an A-Day, the full 20 on direction match, half (floored) when the
signal opposes the A-Day direction. -/
def scoreAdayAlignment (adayStatus : ADayStatus)
    (signalDirection : Option Direction) : ℚ :=
  if ¬ adayStatus.isADay then 0
  else
    let signalIsBullish := signalDirection = some .BUY_CE
    if (adayStatus.direction = some .BULLISH ∧ signalIsBullish) ∨
        (adayStatus.direction = some .BEARISH ∧ ¬ signalIsBullish) then 20
    else ((⌊(20 : ℚ) * 0.5⌋ : ℤ) : ℚ)

/-- Open-interest category (`scoreOISupport`): 5 points each for a PCR
skew in the signal's favour, spot within 1% of max pain, and a detected
OI build-up; 0 for the empty analysis object. -/
def scoreOISupport (oiAnalysis : Option OIData)
    (signalDirection : Option Direction) : ℚ :=
  match oiAnalysis with
  | none => 0
  | some o =>
      let signalIsBullish := signalDirection = some .BUY_CE
      let pcrScore : ℚ :=
        match o.pcrRatio with
        | some pcr =>
            if pcr ≠ 0 then
              if pcr > 1.2 ∧ signalIsBullish then 5
              else if pcr < 0.8 ∧ ¬ signalIsBullish then 5
              else 0
            else 0
        | none => 0
      let maxPainScore : ℚ :=
        if qTruthy o.maxPain ∧ qTruthy o.spotPrice then
          let spot := o.spotPrice.getD 0
          let maxPain := o.maxPain.getD 0
          let percentFromMaxPain := |spot - maxPain| / spot * 100
          if percentFromMaxPain < 1 then 5 else 0
        else 0
      let buildUpScore : ℚ := if o.oiBuildUp then 5 else 0
      pcrScore + maxPainScore + buildUpScore

/-- Volume-spike category (`scoreVolumeSpike`), tiered on the volume
ratio; `none` stands for an absent `volumeRatio`. -/
def scoreVolumeSpike (volumeAnalysis : Option ℚ) : ℚ :=
  match volumeAnalysis with
  | none => 0
  | some ratio =>
      if ratio ≥ 2.0 then 15
      else if ratio ≥ 1.5 then ((⌊(15 : ℚ) * 0.7⌋ : ℤ) : ℚ)
      else if ratio ≥ 1.0 then ((⌊(15 : ℚ) * 0.3⌋ : ℤ) : ℚ)
      else 0

/-- Greeks placeholder category (`scoreOptionGreeks`): always the fixed
mid score. -/
def scoreOptionGreeks : ℚ :=
  ((⌊(10 : ℚ) * 0.5⌋ : ℤ) : ℚ)

/-- Per-detector native score contributions of `calculateConfidence`'s
strategy loop: a result contributes its score when it is positive, its
name maps to a category, and that category has not already been filled
(`breakdown[categoryKey]` check, threaded here as the `used` list). -/
def strategyCategoryTotal : List StrategyResult → List String → ℚ
  | [], _ => 0
  | r :: rs, used =>
      if r.score > 0 then
        match getCategoryKey r.strategyName with
        | some k =>
            if used.contains k then strategyCategoryTotal rs used
            else r.score + strategyCategoryTotal rs (k :: used)
        | none => strategyCategoryTotal rs used
      else strategyCategoryTotal rs used

/-- Minimum confidence score to send an alert (`MIN_CONFIDENCE_SCORE`,
default when the environment variable is unset). -/
def MIN_CONFIDENCE_SCORE : ℚ := 60

/-- Decision fields of `calculateConfidence`'s output (the category
breakdown records and the reason list are presentation derived from the
same category scores). -/
structure ConfidenceResult where
  totalScore : ℚ
  maxScore : ℚ
  meetsThreshold : Bool
  threshold : ℚ
deriving Repr, DecidableEq

/-- Composite confidence score (`calculateConfidence`): sum of the five
category scores, capped at 100; `meetsThreshold` compares the capped
total against the configured minimum. -/
def calculateConfidence (strategyResults : List StrategyResult)
    (adayStatus : ADayStatus) (oiAnalysis : Option OIData)
    (volumeAnalysis : Option ℚ) (signalDirection : Option Direction) :
    ConfidenceResult :=
  let adayScore := scoreAdayAlignment adayStatus signalDirection
  let stratScore := strategyCategoryTotal strategyResults []
  let oiScore := scoreOISupport oiAnalysis signalDirection
  let volumeScore := scoreVolumeSpike volumeAnalysis
  let greeksScore := scoreOptionGreeks
  let totalScore :=
    min 100 (adayScore + stratScore + oiScore + volumeScore + greeksScore)
  { totalScore := totalScore
    maxScore := 100
    meetsThreshold := decide (totalScore ≥ MIN_CONFIDENCE_SCORE)
    threshold := MIN_CONFIDENCE_SCORE }

/-- Summed native score per direction over the signal-bearing results
(`directionScores` tally of `aggregateSignals`). -/
def directionScore (rs : List StrategyResult) (d : Direction) : ℚ :=
  ((rs.filter (fun r => r.signal = some d)).map (·.score)).sum

/-- Count of detectors per direction (`directionCounts` tally). -/
def directionCount (rs : List StrategyResult) (d : Direction) : ℕ :=
  (rs.filter (fun r => r.signal = some d)).length

/-- Dominant-direction rule of `aggregateSignals`: higher summed score
wins; on a score tie the higher count wins, with BUY_CE preferred when
the counts also tie. -/
def chooseDirection (signalResults : List StrategyResult) : Direction :=
  let scoreCE := directionScore signalResults .BUY_CE
  let scorePE := directionScore signalResults .BUY_PE
  if scoreCE ≠ scorePE then
    if scoreCE > scorePE then .BUY_CE else .BUY_PE
  else
    if directionCount signalResults .BUY_CE ≥
        directionCount signalResults .BUY_PE then .BUY_CE else .BUY_PE

/-- One step of the `primaryStrategy` reduce: keep the higher-scoring of
the best-so-far and the current result (strictly greater replaces). -/
def pickHigher (best : Option StrategyResult) (current : StrategyResult) :
    Option StrategyResult :=
  match best with
  | none => some current
  | some b => if current.score > b.score then some current else some b

/-- The reduce that picks the aligned result with the highest native
score (`primaryStrategy` reduce of `aggregateSignals`). -/
def primaryOf (alignedResults : List StrategyResult) :
    Option StrategyResult :=
  alignedResults.foldl pickHigher none

/-- Results carrying a non-null signal (`strategyResults.filter(r => r &&
r.signal)`). -/
def signalResultsOf (strategyResults : List StrategyResult) :
    List StrategyResult :=
  strategyResults.filter (fun r => r.signal.isSome)

/-- Results aligned with the chosen dominant direction. -/
def alignedResultsOf (strategyResults : List StrategyResult) :
    List StrategyResult :=
  let signalResults := signalResultsOf strategyResults
  signalResults.filter (fun r => r.signal = some (chooseDirection signalResults))

/-- Decision fields of an aggregated signal (`aggregateSignals` output:
the formatted WHY section and summary line are presentation). -/
structure AggregatedSignal where
  direction : Direction
  primaryStrategy : String
  contributingStrategies : List String
  spotPrice : Option ℚ
  stopLoss : Option ℚ
  confidenceScore : ℚ
  meetsThreshold : Bool
  strategyData : List (String × ℚ)
  strategyCount : ℕ
deriving Repr, DecidableEq

/-- Merge one tick's detector results into a single signal
(`aggregateSignals`): keep signal-bearing results, choose the dominant
direction, discard the rest, score the aligned results, gate on the
confidence threshold, and build the signal object around the
highest-scoring aligned result. -/
def aggregateSignals (strategyResults : List StrategyResult)
    (adayStatus : ADayStatus) (oiAnalysis : Option OIData)
    (volumeAnalysis : Option ℚ) : Option AggregatedSignal :=
  let signalResults := signalResultsOf strategyResults
  if signalResults.isEmpty then none
  else if directionCount signalResults .BUY_CE = 0 ∧
      directionCount signalResults .BUY_PE = 0 then none
  else
    let primaryDirection := chooseDirection signalResults
    let alignedResults :=
      signalResults.filter (fun r => r.signal = some primaryDirection)
    let strategyNames :=
      (alignedResults.filter (fun r => r.strategyName ≠ "")).map
        (·.strategyName)
    let confidence := calculateConfidence alignedResults adayStatus
      oiAnalysis volumeAnalysis (some primaryDirection)
    if ¬ confidence.meetsThreshold then none
    else
      let primaryStrategy := primaryOf alignedResults
      some
        { direction := primaryDirection
          primaryStrategy :=
            match primaryStrategy with
            | some p =>
                if p.strategyName ≠ "" then p.strategyName else "COMBINED"
            | none => "COMBINED"
          contributingStrategies := strategyNames
          spotPrice := primaryStrategy.bind (·.spotPrice)
          stopLoss := primaryStrategy.bind (·.stopLoss)
          confidenceScore := confidence.totalScore
          meetsThreshold := confidence.meetsThreshold
          strategyData := alignedResults.map (fun r => (r.strategyName, r.score))
          strategyCount := alignedResults.length }

deriving instance DecidableEq for Except

/-- What one detector's `analyze(context)` call produced on this tick:
either a result object or a thrown error message. -/
structure Detector where
  name : String
  analyze : Except String StrategyResult
deriving Repr, DecidableEq

/-- Result entry the engine builds for a detector whose `analyze` threw:
signal null, score 0, one fail reason carrying the error message. -/
def errorResult (name : String) (msg : String) : StrategyResult :=
  { strategyName := name
    signal := none
    score := 0
    reasons := [{ factor := name, status := .fail,
                  detail := "Strategy error: " ++ msg }]
    spotPrice := none
    stopLoss := none }

/-- Entry `runStrategies` produces for one active detector: the
detector's own result stamped with its registry name, or the error
result when `analyze` threw. -/
def resultOfDetector (d : Detector) : StrategyResult :=
  match d.analyze with
  | .ok r => { r with strategyName := d.name }
  | .error msg => errorResult d.name msg

/-- Run the batch of active detectors (`runStrategies`): each detector's
`analyze` is awaited independently and a throw is caught per detector. -/
def runStrategies (activeStrategies : List Detector) : List StrategyResult :=
  activeStrategies.map resultOfDetector

/-- Clear the day classifier's cache (`clearCache`). -/
def clearCache : ADayCache :=
  { lastCheckDate := none, todayADayStatus := none }

/-! Concrete fixtures used by the scenario parts and the evaluation
witnesses below. -/

/-- An ORB result: BUY_CE with native score 8. -/
def orbResultCE8 : StrategyResult :=
  { strategyName := "ORB BREAKOUT", signal := some .BUY_CE, score := 8,
    reasons := [], spotPrice := none, stopLoss := none }

/-- A VWAP result: BUY_CE with native score 5. -/
def vwapResultCE5 : StrategyResult :=
  { strategyName := "VWAP CROSSOVER", signal := some .BUY_CE, score := 5,
    reasons := [], spotPrice := none, stopLoss := none }

/-- An S/R result: BUY_PE with native score 20. -/
def srResultPE20 : StrategyResult :=
  { strategyName := "S/R BREAKOUT", signal := some .BUY_PE, score := 20,
    reasons := [], spotPrice := none, stopLoss := none }

/-- A VWAP result: BUY_CE with native score 20 and price data. -/
def vwapResultCE20 : StrategyResult :=
  { strategyName := "VWAP CROSSOVER", signal := some .BUY_CE, score := 20,
    reasons := [], spotPrice := some 18000, stopLoss := some 17900 }

/-- A bullish A-Day status. -/
def adayBullish : ADayStatus :=
  { isADay := true, direction := some .BULLISH }

/-- An OI analysis supporting a bullish signal on all three counts. -/
def oiSupportive : OIData :=
  { pcrRatio := some 1.3, maxPain := some 18010, spotPrice := some 18000,
    oiBuildUp := true }

/-- The aggregated signal produced from `vwapResultCE20` under
`adayBullish`, `oiSupportive` OI data and a 2× volume ratio
(confidence 20 + 20 + 15 + 15 + 5 = 75). -/
def aggregatedExample : AggregatedSignal :=
  { direction := .BUY_CE
    primaryStrategy := "VWAP CROSSOVER"
    contributingStrategies := ["VWAP CROSSOVER"]
    spotPrice := some 18000
    stopLoss := some 17900
    confidenceScore := 75
    meetsThreshold := true
    strategyData := [("VWAP CROSSOVER", 20)]
    strategyCount := 1 }

/-- The spec's trend-day scenario candle: body 130, range 170, volume at
2× the 100 average. -/
def specCandle : Candle :=
  { open_ := 18000, high := 18150, low := 17980, close := 18130,
    volume := 200 }

/-- First of three bullish 5-minute candles with volume 1200 against a
baseline of 1000 (ratio 1.2). -/
def expCandle1 : Candle :=
  { open_ := 18000, high := 18025, low := 17995, close := 18020,
    volume := 1200 }

/-- Second bullish candle of the 1.2× batch. -/
def expCandle2 : Candle :=
  { open_ := 18020, high := 18045, low := 18015, close := 18040,
    volume := 1200 }

/-- Third bullish candle of the 1.2× batch; net move from the first open
is 60 points. -/
def expCandle3 : Candle :=
  { open_ := 18040, high := 18065, low := 18035, close := 18060,
    volume := 1200 }

/-! Day classifier: trend-day rule and per-day memoization. -/

/-- A cached classifier state that is fresh for `today` and holds `r`
answers a `checkADay` call from the cache, unchanged. -/
theorem checkADay_cached (s : ADayCache) (today : String) (c : Candle)
    (av : ℚ) (r : ADayResult) (h1 : s.lastCheckDate = some today)
    (h2 : s.todayADayStatus = some r) :
    checkADay s today c av = (s, r) := by
  unfold checkADay
  rw [h1, h2]
  simp

/-- Same for the `getADayStatus` entry point. -/
theorem getADayStatus_cached (s : ADayCache) (today : String) (c : Candle)
    (av : ℚ) (r : ADayResult) (h1 : s.lastCheckDate = some today)
    (h2 : s.todayADayStatus = some r) :
    getADayStatus s today c av = (s, r) := by
  unfold getADayStatus
  rw [h1, h2]
  simp

/-- After any `checkADay` call the cache stamps today's date and stores
exactly the returned result. -/
theorem checkADay_post (s : ADayCache) (today : String) (c : Candle)
    (av : ℚ) :
    (checkADay s today c av).1.lastCheckDate = some today ∧
      (checkADay s today c av).1.todayADayStatus =
        some (checkADay s today c av).2 := by
  unfold checkADay
  rcases s with ⟨ld, st⟩
  rcases ld with _ | d <;> rcases st with _ | r <;> simp
  split <;> simp_all

/-- After any `getADayStatus` call the cache stamps today's date and
stores exactly the returned result. -/
theorem getADayStatus_post (s : ADayCache) (today : String) (c : Candle)
    (av : ℚ) :
    (getADayStatus s today c av).1.lastCheckDate = some today ∧
      (getADayStatus s today c av).1.todayADayStatus =
        some (getADayStatus s today c av).2 := by
  rcases s with ⟨ld, st⟩
  rcases ld with _ | d <;> rcases st with _ | r
  · exact checkADay_post _ today c av
  · exact checkADay_post _ today c av
  · exact checkADay_post _ today c av
  · by_cases hd : d = today
    · subst hd
      simp [getADayStatus]
    · have hfall : getADayStatus ⟨some d, some r⟩ today c av =
          checkADay ⟨some d, some r⟩ today c av := by
        simp [getADayStatus, hd]
      rw [hfall]
      exact checkADay_post _ today c av

/-- C9: within one calendar day the A-Day classification is memoized:
after a first `checkADay` (or `getADayStatus`) call, a second call through
either entry point — with any inputs, showing no recomputation occurs —
returns the identical cached state-and-result pair; the cache key is the
calendar day alone. -/
theorem dayClassifier_memoized (cache : ADayCache) (today : String)
    (c : Candle) (av : ℚ) (c2 : Candle) (av2 : ℚ) :
    (checkADay (checkADay cache today c av).1 today c2 av2 =
        checkADay cache today c av) ∧
      (getADayStatus (checkADay cache today c av).1 today c2 av2 =
        checkADay cache today c av) ∧
      (checkADay (getADayStatus cache today c av).1 today c2 av2 =
        getADayStatus cache today c av) ∧
      (getADayStatus (getADayStatus cache today c av).1 today c2 av2 =
        getADayStatus cache today c av) := by
  obtain ⟨h1, h2⟩ := checkADay_post cache today c av
  obtain ⟨g1, g2⟩ := getADayStatus_post cache today c av
  refine ⟨?_, ?_, ?_, ?_⟩
  · rw [checkADay_cached _ today c2 av2 _ h1 h2]
  · rw [getADayStatus_cached _ today c2 av2 _ h1 h2]
  · rw [checkADay_cached _ today c2 av2 _ g1 g2]
  · rw [getADayStatus_cached _ today c2 av2 _ g1 g2]

/-- C6: body-ratio formula with the zero-range guard; a day is a trend
day exactly when bodyRatio ≥ 0.6, range ≥ 100 and volumeRatio ≥ 1.0; the
direction is reported (non-null) only on a trend day and is then BULLISH
precisely when close > open and BEARISH otherwise (the source's
`close >= open` test cannot differ because a trend day forces a non-zero
body); a zero-range candle gets bodyRatio 0 and is never a trend day. -/
theorem dayClassifier_trend_day_rule (c : Candle) (avgVolume : ℚ)
    (hav : 0 < avgVolume) :
    (c.high - c.low ≠ 0 →
      calculateBodyRatio c = |c.close - c.open_| / (c.high - c.low)) ∧
    ((checkADayMock c avgVolume).isADay = true ↔
      (calculateBodyRatio c ≥ 0.6 ∧ calculateRange c ≥ 100 ∧
        c.volume / avgVolume ≥ 1.0)) ∧
    ((checkADayMock c avgVolume).isADay = true →
      (checkADayMock c avgVolume).direction =
        some (if c.close > c.open_ then CandleDir.BULLISH
          else CandleDir.BEARISH)) ∧
    ((checkADayMock c avgVolume).isADay = false →
      (checkADayMock c avgVolume).direction = none) ∧
    (c.high - c.low = 0 →
      calculateBodyRatio c = 0 ∧ (checkADayMock c avgVolume).isADay = false) := by
  refine ⟨?_, ?_, ?_, ?_, ?_⟩
  · intro h
    simp [calculateBodyRatio, h]
  · simp [checkADayMock, Bool.and_eq_true, decide_eq_true_eq, and_assoc]
  · intro h
    have hcrit : calculateBodyRatio c ≥ 0.6 ∧ calculateRange c ≥ 100 ∧
        c.volume / avgVolume ≥ 1.0 := by
      simpa [checkADayMock, Bool.and_eq_true, decide_eq_true_eq, and_assoc]
        using h
    obtain ⟨hbr, hrange, hvol⟩ := hcrit
    have hrpos : (0 : ℚ) < c.high - c.low := by
      have : (100 : ℚ) ≤ c.high - c.low := by
        simpa [calculateRange] using hrange
      linarith
    have hbody : (0.6 : ℚ) * (c.high - c.low) ≤ |c.close - c.open_| := by
      have hbr2 : (0.6 : ℚ) ≤ |c.close - c.open_| / (c.high - c.low) := by
        simpa [calculateBodyRatio, hrpos.ne'] using hbr
      exact (le_div_iff₀ hrpos).mp hbr2
    have hbodypos : (0 : ℚ) < |c.close - c.open_| := by nlinarith
    have hne : c.close ≠ c.open_ := by
      intro heq
      rw [heq] at hbodypos
      simp at hbodypos
    have hdir : (checkADayMock c avgVolume).direction =
        some (getCandleDirection c) := by
      simp only [checkADayMock]
      simp_all
    rw [hdir]
    rcases lt_or_gt_of_ne hne with hlt | hgt
    · rw [if_neg (by linarith), getCandleDirection, if_neg (by linarith)]
    · rw [if_pos hgt, getCandleDirection, if_pos (le_of_lt hgt)]
  · intro h
    simp only [checkADayMock] at h ⊢
    simp_all
  · intro h
    constructor
    · simp [calculateBodyRatio, h]
    · have : calculateRange c = 0 := by simp [calculateRange]; linarith
      simp [checkADayMock, calculateRange] at this ⊢
      intro h1 h2
      rw [this] at h2
      norm_num at h2

/-- Evaluation witness for C6 at the spec's scenario candle: open 18000,
high 18150, low 17980, close 18130, volume at 2× the 100 trailing
average — a bullish trend day with body ratio 13/17. -/
theorem dayClassifier_trend_day_rule_witness :
    (0 : ℚ) < 100 ∧ (checkADayMock specCandle 100).isADay = true ∧
      (checkADayMock specCandle 100).direction = some CandleDir.BULLISH := by
  have hav : (0 : ℚ) < 100 := by norm_num
  have h := dayClassifier_trend_day_rule specCandle 100 hav
  have hA : (checkADayMock specCandle 100).isADay = true := by
    refine h.2.1.mpr ⟨?_, ?_, ?_⟩
    · norm_num [calculateBodyRatio, specCandle]
    · norm_num [calculateRange, specCandle]
    · norm_num [specCandle]
  have hdir := h.2.2.1 hA
  rw [if_pos (by norm_num [specCandle])] at hdir
  exact ⟨hav, hA, hdir⟩

/-! Safety filter: duplicate suppression, lock state machine, framing. -/

/-- Within the same calendar day `ensureTodayState` is the identity. -/
theorem ensureTodayState_eq (s : DailyState) (today : String)
    (h : s.date = some today) : ensureTodayState s today = s := by
  simp [ensureTodayState, h]

/-- An outside-window rejection never spells a duplicate rejection. -/
theorem reason_window_ne_dup (a b : String) :
    "Outside time window for " ++ a ≠ "Signal already sent for " ++ b := by
  intro h
  rcases a with ⟨ad⟩
  rcases b with ⟨bd⟩
  have h2 := congrArg String.data h
  simp [String.data_append] at h2

/-- A rapid-fire rejection never spells a duplicate rejection. -/
theorem reason_gap_ne_dup (b : String) :
    "Too soon after last signal" ≠ "Signal already sent for " ++ b := by
  intro h
  rcases b with ⟨bd⟩
  have h2 := congrArg String.data h
  simp [String.data_append] at h2

/-- Acceptance never spells a duplicate rejection. -/
theorem reason_ok_ne_dup (b : String) :
    "Signal validated" ≠ "Signal already sent for " ++ b := by
  intro h
  rcases b with ⟨bd⟩
  have h2 := congrArg String.data h
  simp [String.data_append] at h2

/-- Fields written by `markSignalSent` on a same-day state: the signalled
direction's flag goes true, everything else except `lastSignalTime` is
untouched. -/
theorem markSignalSent_fields (d : Direction) (s : DailyState) (t0 : ℤ)
    (today : String) (hdate : s.date = some today) :
    (markSignalSent d s t0 today).date = some today ∧
      (markSignalSent d s t0 today).isLocked = s.isLocked ∧
      (markSignalSent d s t0 today).totalLoss = s.totalLoss ∧
      (markSignalSent d s t0 today).getSent d = true ∧
      (∀ d2, d2 ≠ d → (markSignalSent d s t0 today).getSent d2 = s.getSent d2) := by
  have hens := ensureTodayState_eq s today hdate
  cases d
  · refine ⟨by simp [markSignalSent, hens, hdate],
      by simp [markSignalSent, hens], by simp [markSignalSent, hens],
      by simp [markSignalSent, hens, DailyState.getSent], ?_⟩
    intro d2 hne
    cases d2
    · exact absurd rfl hne
    · simp [markSignalSent, hens, DailyState.getSent]
  · refine ⟨by simp [markSignalSent, hens, hdate],
      by simp [markSignalSent, hens], by simp [markSignalSent, hens],
      by simp [markSignalSent, hens, DailyState.getSent], ?_⟩
    intro d2 hne
    cases d2
    · simp [markSignalSent, hens, DailyState.getSent]
    · exact absurd rfl hne

/-- C3: in a session that is neither locked nor at the loss cap, once
`markSignalSent` has recorded a direction, every later `validateSignal`
for that direction is rejected with the duplicate-direction reason; any
same-day state with the direction flag set validates to invalid; the two
directions are tracked independently — marking one direction neither
touches the other flag nor can make the other direction's first
validation fail with a duplicate reason. -/
theorem safetyFilter_duplicate_direction (s : DailyState) (today : String)
    (d : Direction) (t0 : ℤ) (strat : String) (clock : Clock)
    (hdate : s.date = some today) (hlock : s.isLocked = false)
    (hloss : s.totalLoss < maxLossPerTrade) :
    ((validateSignal ⟨d, strat⟩ (markSignalSent d s t0 today) clock today).2 =
        ⟨false, "Signal already sent for " ++ dirToString d⟩) ∧
    (∀ d2, d2 ≠ d → (markSignalSent d s t0 today).getSent d2 = s.getSent d2) ∧
    (∀ s2 clock2 strat2, s2.date = some today → s2.getSent d = true →
        (validateSignal ⟨d, strat2⟩ s2 clock2 today).2.isValid = false) ∧
    (∀ d2 strat2 clock2, d2 ≠ d → s.getSent d2 = false →
        (validateSignal ⟨d2, strat2⟩ (markSignalSent d s t0 today) clock2
            today).2.reason ≠
          "Signal already sent for " ++ dirToString d2) := by
  obtain ⟨h1date, h1lock, h1loss, h1sent, h1other⟩ :=
    markSignalSent_fields d s t0 today hdate
  have hens1 := ensureTodayState_eq _ today h1date
  refine ⟨?_, h1other, ?_, ?_⟩
  · rw [validateSignal, hens1, if_neg (by rw [h1lock, hlock]; simp),
      if_neg (by rw [h1loss]; exact not_le.mpr hloss), if_pos h1sent]
  · intro s2 clock2 strat2 h2date h2sent
    rw [validateSignal, ensureTodayState_eq _ today h2date]
    split_ifs <;> simp_all
  · intro d2 strat2 clock2 hne hfalse
    rw [validateSignal, hens1, if_neg (by rw [h1lock, hlock]; simp),
      if_neg (by rw [h1loss]; exact not_le.mpr hloss),
      if_neg (by rw [h1other d2 hne, hfalse]; simp)]
    dsimp only
    split_ifs with hw
    · cases hlst : (markSignalSent d s t0 today).lastSignalTime with
      | none =>
          simp only [hlst]
          exact reason_ok_ne_dup _
      | some t =>
          simp only [hlst]
          split_ifs with hgap
          · exact reason_gap_ne_dup _
          · exact reason_ok_ne_dup _
    · exact reason_window_ne_dup _ _

/-- Evaluation witness for C3 on a fresh session: after marking BUY_CE
sent, validating BUY_CE is rejected as a duplicate while BUY_PE's flag is
still clear and its validation is not a duplicate rejection. -/
theorem safetyFilter_duplicate_direction_witness :
    ((resetDailyState "2026-03-02").date = some "2026-03-02" ∧
      (resetDailyState "2026-03-02").isLocked = false ∧
      (resetDailyState "2026-03-02").totalLoss < maxLossPerTrade) ∧
    (validateSignal ⟨.BUY_CE, "ORB BREAKOUT"⟩
        (markSignalSent .BUY_CE (resetDailyState "2026-03-02") 0 "2026-03-02")
        ⟨600000, 600⟩ "2026-03-02").2 =
      ⟨false, "Signal already sent for " ++ dirToString .BUY_CE⟩ ∧
    (validateSignal ⟨.BUY_PE, "ORB BREAKOUT"⟩
        (markSignalSent .BUY_CE (resetDailyState "2026-03-02") 0 "2026-03-02")
        ⟨600000, 600⟩ "2026-03-02").2.reason ≠
      "Signal already sent for " ++ dirToString .BUY_PE := by
  have hd : (resetDailyState "2026-03-02").date = some "2026-03-02" := by
    simp [resetDailyState]
  have hl : (resetDailyState "2026-03-02").isLocked = false := by
    simp [resetDailyState]
  have hls : (resetDailyState "2026-03-02").totalLoss < maxLossPerTrade := by
    norm_num [resetDailyState, maxLossPerTrade]
  have h := safetyFilter_duplicate_direction (resetDailyState "2026-03-02")
    "2026-03-02" .BUY_CE 0 "ORB BREAKOUT" ⟨600000, 600⟩ hd hl hls
  refine ⟨⟨hd, hl, hls⟩, h.1, ?_⟩
  exact h.2.2.2 .BUY_PE "ORB BREAKOUT" ⟨600000, 600⟩ (by simp)
    (by simp [resetDailyState, DailyState.getSent])

/-- C10: within one session (state already stamped with today's date), a
`validateSignal` call returns the state unchanged whatever its verdict —
validation reads `signalsSent`, `totalLoss`, `lastSignalTime` and
`isLocked` but never writes them. -/
theorem validateSignal_frame (sig : SignalInput) (s : DailyState)
    (clock : Clock) (today : String) (h : s.date = some today) :
    (validateSignal sig s clock today).1 = s := by
  rw [validateSignal, ensureTodayState_eq s today h]
  dsimp only
  split_ifs <;> try rfl
  all_goals cases hl : s.lastSignalTime
  all_goals simp only [hl]
  all_goals split_ifs <;> rfl

/-- Evaluation witness for C10: on a fresh session a rejected validation
(fresh state is outside every window at minute 0) leaves the state
byte-identical. -/
theorem validateSignal_frame_witness :
    (resetDailyState "2026-03-04").date = some "2026-03-04" ∧
      (validateSignal ⟨.BUY_CE, "ORB BREAKOUT"⟩ (resetDailyState "2026-03-04")
          ⟨0, 0⟩ "2026-03-04").1 = resetDailyState "2026-03-04" := by
  have hd : (resetDailyState "2026-03-04").date = some "2026-03-04" := by
    simp [resetDailyState]
  exact ⟨hd, validateSignal_frame ⟨.BUY_CE, "ORB BREAKOUT"⟩
    (resetDailyState "2026-03-04") ⟨0, 0⟩ "2026-03-04" hd⟩

/-- Counterexample to C5 as stated: recording a loss at the full
per-session cap does NOT flip the filter to LOCKED (`isLocked` stays
false — there is no automatic OPEN→LOCKED transition in the code), and
after an explicit `unlockTrading` the next `validateSignal` is still
rejected with the max-daily-loss reason, contradicting the claim that
unlocking ends rejection for lock or loss reasons. -/
theorem safetyFilter_lock_counterexample :
    (recordTrade ⟨.BUY_CE, -300000, "ORB"⟩ (resetDailyState "2026-03-02") 0
        "2026-03-02").totalLoss = maxLossPerTrade ∧
    (recordTrade ⟨.BUY_CE, -300000, "ORB"⟩ (resetDailyState "2026-03-02") 0
        "2026-03-02").isLocked = false ∧
    (unlockTrading (recordTrade ⟨.BUY_CE, -300000, "ORB"⟩
        (resetDailyState "2026-03-02") 0 "2026-03-02")
        "2026-03-02").isLocked = false ∧
    (validateSignal ⟨.BUY_CE, "ORB BREAKOUT"⟩
        (unlockTrading (recordTrade ⟨.BUY_CE, -300000, "ORB"⟩
          (resetDailyState "2026-03-02") 0 "2026-03-02") "2026-03-02")
        ⟨600000, 600⟩ "2026-03-02").2 =
      ⟨false, "Max daily loss hit"⟩ := by
  refine ⟨?_, ?_, ?_, ?_⟩ <;>
    norm_num [recordTrade, resetDailyState, ensureTodayState, unlockTrading,
      validateSignal, maxLossPerTrade]

/-- C5 amended: the lock flag is a manual-only state machine —
`lockTrading` sets it, `unlockTrading` clears it, and `recordTrade` never
touches it (no automatic loss-triggered lock transition exists); the loss
cap is enforced as an independent check inside `validateSignal`, so a
locked state is rejected with the lock reason and an unlocked state whose
cumulative loss has reached the cap is still rejected with the
max-daily-loss reason — unlocking removes only the lock-reason
rejection. -/
theorem safetyFilter_lock_state_machine :
    (∀ t s (now : ℤ) today, (recordTrade t s now today).isLocked =
        (ensureTodayState s today).isLocked) ∧
    (∀ s today, (lockTrading s today).isLocked = true) ∧
    (∀ s today, (unlockTrading s today).isLocked = false) ∧
    (∀ sig s clock today, s.date = some today → s.isLocked = true →
      (validateSignal sig s clock today).2 =
        ⟨false, "Trading is locked for the day"⟩) ∧
    (∀ sig s clock today, s.date = some today → s.isLocked = false →
      s.totalLoss ≥ maxLossPerTrade →
      (validateSignal sig s clock today).2 =
        ⟨false, "Max daily loss hit"⟩) := by
  refine ⟨?_, ?_, ?_, ?_, ?_⟩
  · intro t s now today
    simp only [recordTrade]
    split_ifs <;> rfl
  · intro s today
    simp [lockTrading]
  · intro s today
    simp [unlockTrading]
  · intro sig s clock today hdate hlock
    rw [validateSignal, ensureTodayState_eq s today hdate, if_pos hlock]
  · intro sig s clock today hdate hlock hloss
    rw [validateSignal, ensureTodayState_eq s today hdate,
      if_neg (by rw [hlock]; simp), if_pos hloss]

/-- Evaluation witness for the amended C5 at concrete states: a manually
locked fresh session is rejected with the lock reason, and the
at-the-cap unlocked session of the counterexample is rejected with the
loss reason. -/
theorem safetyFilter_lock_state_machine_witness :
    (lockTrading (resetDailyState "2026-03-05") "2026-03-05").isLocked = true ∧
    (validateSignal ⟨.BUY_CE, "ORB BREAKOUT"⟩
        (lockTrading (resetDailyState "2026-03-05") "2026-03-05")
        ⟨600000, 600⟩ "2026-03-05").2 =
      ⟨false, "Trading is locked for the day"⟩ ∧
    (validateSignal ⟨.BUY_CE, "ORB BREAKOUT"⟩
        (unlockTrading (recordTrade ⟨.BUY_CE, -300000, "ORB"⟩
          (resetDailyState "2026-03-05") 0 "2026-03-05") "2026-03-05")
        ⟨600000, 600⟩ "2026-03-05").2 =
      ⟨false, "Max daily loss hit"⟩ := by
  have h := safetyFilter_lock_state_machine
  refine ⟨h.2.1 (resetDailyState "2026-03-05") "2026-03-05", ?_, ?_⟩
  · exact h.2.2.2.1 ⟨.BUY_CE, "ORB BREAKOUT"⟩ _ ⟨600000, 600⟩ "2026-03-05"
      (by simp [lockTrading, resetDailyState, ensureTodayState])
      (by simp [lockTrading])
  · exact h.2.2.2.2 ⟨.BUY_CE, "ORB BREAKOUT"⟩ _ ⟨600000, 600⟩ "2026-03-05"
      (by simp [unlockTrading, recordTrade, resetDailyState, ensureTodayState])
      (by simp [unlockTrading])
      (by norm_num [unlockTrading, recordTrade, resetDailyState,
        ensureTodayState, maxLossPerTrade])

/-! Expiry-day momentum: the volume gate returns a bare null. -/

/-- C7 amended: whenever the 3-candle average volume is below 1.5× the
baseline (the code's `volumeRatio` including its zero-baseline guard),
the expiry-momentum check returns `none` outright — the whole result is
null, so no reason list of any kind accompanies the rejection. -/
theorem expiryMomentum_volume_gate (mockCandles : List Candle)
    (mockBaseline : ℚ)
    (hratio : (if mockBaseline > 0 then
        calculateAvgVolume (mockCandles.drop (mockCandles.length - 3)) /
          mockBaseline
      else 0) < 1.5) :
    checkMomentumMock mockCandles mockBaseline = none := by
  unfold checkMomentumMock
  by_cases h1 : mockCandles.length < 3
  · rw [if_pos h1]
  · rw [if_neg h1]
    dsimp only
    rw [if_pos hratio]

/-- Counterexample to C7 as stated: three bullish candles moving 60
points with volume at exactly 1.2× the 1000 baseline — only the volume
criterion fails, and the detector returns `none`: there is no result
object at all, hence no fail-status reason naming Volume (or anything
else) is produced. -/
theorem expiryMomentum_volume_counterexample :
    (calculateAvgVolume [expCandle1, expCandle2, expCandle3] / 1000 = 1.2 ∧
      (1.2 : ℚ) < 1.5) ∧
    ([expCandle1, expCandle2, expCandle3].all
      (fun c => c.close > c.open_) = true) ∧
    (|expCandle3.close - expCandle1.open_| ≥ 50) ∧
    checkMomentumMock [expCandle1, expCandle2, expCandle3] 1000 = none := by
  refine ⟨⟨?_, by norm_num⟩, ?_, ?_, ?_⟩
  · norm_num [calculateAvgVolume, expCandle1, expCandle2, expCandle3]
  · norm_num [expCandle1, expCandle2, expCandle3]
  · norm_num [expCandle1, expCandle3]
  · norm_num [checkMomentumMock, calculateAvgVolume, expCandle1, expCandle2,
      expCandle3]

/-- Evaluation witness for the amended C7 at the 1.2× batch. -/
theorem expiryMomentum_volume_gate_witness :
    ((if (1000 : ℚ) > 0 then
        calculateAvgVolume
            ([expCandle1, expCandle2, expCandle3].drop
              ([expCandle1, expCandle2, expCandle3].length - 3)) / 1000
      else 0) < 1.5) ∧
    checkMomentumMock [expCandle1, expCandle2, expCandle3] 1000 = none := by
  have hr : (if (1000 : ℚ) > 0 then
      calculateAvgVolume
          ([expCandle1, expCandle2, expCandle3].drop
            ([expCandle1, expCandle2, expCandle3].length - 3)) / 1000
    else 0) < 1.5 := by
    norm_num [calculateAvgVolume, expCandle1, expCandle2, expCandle3]
  exact ⟨hr, expiryMomentum_volume_gate _ _ hr⟩

/-! Strategy engine: per-detector failure isolation. -/

/-- C8: the engine's batch result is an element-wise map of each
detector's own `analyze` outcome — entry `i` depends on detector `i`
alone, so one throwing detector can neither abort the batch nor alter a
sibling's entry; a thrown message yields the error entry with signal
null, score 0 and a single fail reason carrying the message, while a
returning detector's entry is its own result stamped with its registry
name. -/
theorem runStrategies_isolates_failures (ds : List Detector) (i : ℕ) :
    ((runStrategies ds).length = ds.length) ∧
    ((runStrategies ds)[i]? = (ds[i]?).map resultOfDetector) ∧
    (∀ d msg, d.analyze = Except.error msg →
      resultOfDetector d = errorResult d.name msg ∧
      (resultOfDetector d).signal = none ∧
      (resultOfDetector d).score = 0 ∧
      (resultOfDetector d).reasons =
        [{ factor := d.name, status := .fail,
           detail := "Strategy error: " ++ msg }]) ∧
    (∀ d r, d.analyze = Except.ok r →
      resultOfDetector d = { r with strategyName := d.name }) := by
  refine ⟨?_, ?_, ?_, ?_⟩
  · simp [runStrategies]
  · simp [runStrategies, List.getElem?_map]
  · intro d msg h
    refine ⟨?_, ?_, ?_, ?_⟩ <;> simp [resultOfDetector, h, errorResult]
  · intro d r h
    simp [resultOfDetector, h]

/-- Evaluation witness for C8: a two-detector batch in which the first
throws and the second returns normally — the first entry is the error
result, the second is untouched. -/
theorem runStrategies_isolates_failures_witness :
    (Detector.mk "ORB" (Except.error "boom")).analyze = Except.error "boom" ∧
    (Detector.mk "VWAP" (Except.ok vwapResultCE5)).analyze =
      Except.ok vwapResultCE5 ∧
    (runStrategies [Detector.mk "ORB" (Except.error "boom"),
        Detector.mk "VWAP" (Except.ok vwapResultCE5)])[0]? =
      some (errorResult "ORB" "boom") ∧
    (runStrategies [Detector.mk "ORB" (Except.error "boom"),
        Detector.mk "VWAP" (Except.ok vwapResultCE5)])[1]? =
      some { vwapResultCE5 with strategyName := "VWAP" } := by
  have h := runStrategies_isolates_failures
    [Detector.mk "ORB" (Except.error "boom"),
      Detector.mk "VWAP" (Except.ok vwapResultCE5)] 0
  have herr := (h.2.2.1 (Detector.mk "ORB" (Except.error "boom")) "boom" rfl).1
  have hok := h.2.2.2 (Detector.mk "VWAP" (Except.ok vwapResultCE5))
    vwapResultCE5 rfl
  refine ⟨rfl, rfl, ?_, ?_⟩
  · rw [h.2.1]
    simp [herr]
  · have h1 := (runStrategies_isolates_failures
      [Detector.mk "ORB" (Except.error "boom"),
        Detector.mk "VWAP" (Except.ok vwapResultCE5)] 1).2.1
    rw [h1]
    simp [hok]

/-! Signal aggregator and confidence scorer. -/

/-- The category key of the VWAP detector name, evaluated. -/
theorem getCategoryKey_vwap :
    getCategoryKey "VWAP CROSSOVER" = some "vwapConfirmation" := by decide

/-- A strictly higher BUY_CE score sum makes BUY_CE dominant. -/
theorem chooseDirection_CE_of_score (rs : List StrategyResult)
    (h : directionScore rs .BUY_CE > directionScore rs .BUY_PE) :
    chooseDirection rs = .BUY_CE := by
  simp [chooseDirection, ne_of_gt h, h]

/-- A strictly higher BUY_PE score sum makes BUY_PE dominant. -/
theorem chooseDirection_PE_of_score (rs : List StrategyResult)
    (h : directionScore rs .BUY_PE > directionScore rs .BUY_CE) :
    chooseDirection rs = .BUY_PE := by
  simp [chooseDirection, ne_of_lt h, lt_asymm h]

/-- On a score tie the detector counts break it, BUY_CE winning weak
count ties. -/
theorem chooseDirection_tie (rs : List StrategyResult)
    (h : directionScore rs .BUY_CE = directionScore rs .BUY_PE) :
    (directionCount rs .BUY_CE ≥ directionCount rs .BUY_PE →
      chooseDirection rs = .BUY_CE) ∧
    (directionCount rs .BUY_PE > directionCount rs .BUY_CE →
      chooseDirection rs = .BUY_PE) := by
  constructor
  · intro hc
    simp [chooseDirection, h, hc]
  · intro hc
    simp [chooseDirection, h, not_le.mpr hc]

/-- Direction score sums are non-negative when every score is. -/
theorem directionScore_nonneg (rs : List StrategyResult)
    (h : ∀ r ∈ rs, 0 ≤ r.score) (d : Direction) :
    0 ≤ directionScore rs d := by
  unfold directionScore
  apply List.sum_nonneg
  intro x hx
  rw [List.mem_map] at hx
  obtain ⟨r, hr, rfl⟩ := hx
  exact h r (List.mem_of_mem_filter hr)

/-- A direction with no agreeing detector has score sum 0. -/
theorem directionScore_eq_zero_of_count_zero (rs : List StrategyResult)
    (d : Direction) (h : directionCount rs d = 0) :
    directionScore rs d = 0 := by
  unfold directionCount at h
  rw [List.length_eq_zero] at h
  unfold directionScore
  rw [h]
  rfl

/-- Every signal-bearing result is BUY_CE or BUY_PE, so the two counts
partition the batch. -/
theorem directionCount_total (rs : List StrategyResult)
    (hall : ∀ r ∈ rs, r.signal.isSome) :
    directionCount rs .BUY_CE + directionCount rs .BUY_PE = rs.length := by
  induction rs with
  | nil => rfl
  | cons r t ih =>
      have hr := hall r (by simp)
      have ht : ∀ x ∈ t, x.signal.isSome := fun x hx => hall x (by simp [hx])
      specialize ih ht
      simp only [directionCount, List.filter_cons] at ih ⊢
      rcases hs : r.signal with _ | d
      · rw [hs] at hr
        simp at hr
      · cases d <;> simp [hs] <;> omega

/-- Membership in the signal-bearing sublist. -/
theorem mem_signalResultsOf (rs : List StrategyResult) (r : StrategyResult)
    (hr : r ∈ signalResultsOf rs) : r.signal.isSome ∧ r ∈ rs := by
  unfold signalResultsOf at hr
  rw [List.mem_filter] at hr
  exact ⟨hr.2, hr.1⟩

/-- With non-negative scores, the chosen dominant direction always has at
least one agreeing detector in a non-empty signal batch. -/
theorem directionCount_choose_pos (srs : List StrategyResult)
    (hall : ∀ r ∈ srs, r.signal.isSome)
    (hmem : ∀ r ∈ srs, 0 ≤ r.score)
    (hlen : 0 < srs.length) :
    0 < directionCount srs (chooseDirection srs) := by
  have htotal := directionCount_total srs hall
  rcases lt_trichotomy (directionScore srs .BUY_CE)
      (directionScore srs .BUY_PE) with hlt | heq | hgt
  · rw [chooseDirection_PE_of_score srs hlt]
    rcases Nat.eq_zero_or_pos (directionCount srs .BUY_PE) with hz | hp
    · have h0 := directionScore_eq_zero_of_count_zero srs .BUY_PE hz
      have hCE := directionScore_nonneg srs hmem .BUY_CE
      linarith
    · exact hp
  · by_cases hge : directionCount srs .BUY_CE ≥ directionCount srs .BUY_PE
    · rw [(chooseDirection_tie srs heq).1 hge]
      omega
    · rw [(chooseDirection_tie srs heq).2 (not_le.mp hge)]
      omega
  · rw [chooseDirection_CE_of_score srs hgt]
    rcases Nat.eq_zero_or_pos (directionCount srs .BUY_CE) with hz | hp
    · have h0 := directionScore_eq_zero_of_count_zero srs .BUY_CE hz
      have hPE := directionScore_nonneg srs hmem .BUY_PE
      linarith
    · exact hp

/-- The aligned sublist is non-empty whenever the tick had any signal and
scores are non-negative. -/
theorem alignedResultsOf_ne_nil (rs : List StrategyResult)
    (hne : (signalResultsOf rs).isEmpty = false)
    (hscores : ∀ r ∈ rs, 0 ≤ r.score) :
    alignedResultsOf rs ≠ [] := by
  have hall : ∀ r ∈ signalResultsOf rs, r.signal.isSome :=
    fun r hr => (mem_signalResultsOf rs r hr).1
  have hmem : ∀ r ∈ signalResultsOf rs, 0 ≤ r.score :=
    fun r hr => hscores r (mem_signalResultsOf rs r hr).2
  have hlen : 0 < (signalResultsOf rs).length := by
    rcases h : signalResultsOf rs with _ | ⟨a, t⟩
    · rw [h] at hne
      simp at hne
    · simp
  have hpos := directionCount_choose_pos (signalResultsOf rs) hall hmem hlen
  unfold alignedResultsOf
  intro h0
  unfold directionCount at hpos
  rw [h0] at hpos
  simp at hpos

/-- The `pickHigher` fold starting from a seed yields a maximum of the
seed and the list. -/
theorem primaryOf_aux (l : List StrategyResult) (b : StrategyResult) :
    ∃ p, l.foldl pickHigher (some b) = some p ∧ (p = b ∨ p ∈ l) ∧
      b.score ≤ p.score ∧ ∀ r ∈ l, r.score ≤ p.score := by
  induction l generalizing b with
  | nil => exact ⟨b, rfl, Or.inl rfl, le_refl _, by simp⟩
  | cons hd t ih =>
      have step : pickHigher (some b) hd =
          some (if hd.score > b.score then hd else b) := by
        show (if hd.score > b.score then some hd else some b) = _
        split_ifs <;> rfl
      rw [List.foldl_cons, step]
      obtain ⟨p, hp, hmem, hscore, hall⟩ :=
        ih (if hd.score > b.score then hd else b)
      refine ⟨p, hp, ?_, ?_, ?_⟩
      · rcases hmem with h | h
        · by_cases hc : hd.score > b.score
          · rw [if_pos hc] at h
            exact Or.inr (h ▸ List.mem_cons_self hd t)
          · rw [if_neg hc] at h
            exact Or.inl h
        · exact Or.inr (List.mem_cons_of_mem _ h)
      · refine le_trans ?_ hscore
        split_ifs with hc
        · exact le_of_lt hc
        · exact le_refl _
      · intro r hr
        rcases List.mem_cons.mp hr with rfl | hr2
        · refine le_trans ?_ hscore
          split_ifs with hc
          · exact le_refl _
          · exact not_lt.mp hc
        · exact hall r hr2

/-- The `primaryStrategy` reduce returns a member of a non-empty aligned
list whose native score is maximal. -/
theorem primaryOf_spec (l : List StrategyResult) (hne : l ≠ []) :
    ∃ p, primaryOf l = some p ∧ p ∈ l ∧ ∀ r ∈ l, r.score ≤ p.score := by
  rcases l with _ | ⟨hd, t⟩
  · exact absurd rfl hne
  · unfold primaryOf
    rw [List.foldl_cons]
    obtain ⟨p, hp, hmem, hseed, hall⟩ := primaryOf_aux t hd
    refine ⟨p, hp, ?_, ?_⟩
    · rcases hmem with rfl | h
      · exact List.mem_cons_self _ _
      · exact List.mem_cons_of_mem _ h
    · intro r hr
      rcases List.mem_cons.mp hr with rfl | hr2
      · exact hseed
      · exact hall r hr2

/-- Destructuring an emitted aggregated signal: the branch conditions
that must have held and the decision fields of the built record. -/
theorem aggregateSignals_some_eq (rs : List StrategyResult)
    (aday : ADayStatus) (oi : Option OIData) (vol : Option ℚ)
    (sig : AggregatedSignal)
    (hsig : aggregateSignals rs aday oi vol = some sig) :
    (signalResultsOf rs).isEmpty = false ∧
    (calculateConfidence (alignedResultsOf rs) aday oi vol
        (some (chooseDirection (signalResultsOf rs)))).meetsThreshold = true ∧
    sig.direction = chooseDirection (signalResultsOf rs) ∧
    sig.strategyData =
      (alignedResultsOf rs).map (fun r => (r.strategyName, r.score)) ∧
    sig.confidenceScore =
      (calculateConfidence (alignedResultsOf rs) aday oi vol
        (some (chooseDirection (signalResultsOf rs)))).totalScore ∧
    sig.primaryStrategy =
      (match primaryOf (alignedResultsOf rs) with
        | some p => if p.strategyName ≠ "" then p.strategyName else "COMBINED"
        | none => "COMBINED") := by
  unfold aggregateSignals at hsig
  dsimp only at hsig
  have hfold : List.filter
      (fun r => decide (r.signal = some (chooseDirection (signalResultsOf rs))))
      (signalResultsOf rs) = alignedResultsOf rs := rfl
  rw [hfold] at hsig
  by_cases h1 : (signalResultsOf rs).isEmpty
  · rw [if_pos h1] at hsig
    exact absurd hsig (by simp)
  · rw [if_neg h1] at hsig
    by_cases h2 : directionCount (signalResultsOf rs) .BUY_CE = 0 ∧
        directionCount (signalResultsOf rs) .BUY_PE = 0
    · rw [if_pos h2] at hsig
      exact absurd hsig (by simp)
    · rw [if_neg h2] at hsig
      by_cases h3 : (calculateConfidence (alignedResultsOf rs) aday oi vol
          (some (chooseDirection (signalResultsOf rs)))).meetsThreshold = true
      · rw [if_neg (by rw [h3]; simp)] at hsig
        obtain rfl := (Option.some.inj hsig).symm
        exact ⟨by simpa using h1, h3, rfl, rfl, rfl, rfl⟩
      · rw [if_pos (by simpa using h3)] at hsig
        exact absurd hsig (by simp)

/-- The A-Day alignment category score is non-negative. -/
theorem scoreAdayAlignment_nonneg (aday : ADayStatus)
    (dir : Option Direction) : 0 ≤ scoreAdayAlignment aday dir := by
  unfold scoreAdayAlignment
  dsimp only
  split_ifs <;> norm_num

/-- The OI-support category score is non-negative. -/
theorem scoreOISupport_nonneg (oi : Option OIData) (dir : Option Direction) :
    0 ≤ scoreOISupport oi dir := by
  unfold scoreOISupport
  rcases oi with _ | o
  · norm_num
  · dsimp only
    refine add_nonneg (add_nonneg ?_ ?_) ?_
    · rcases o.pcrRatio with _ | pcr
      · norm_num
      · dsimp only
        split_ifs <;> norm_num
    · dsimp only
      split_ifs <;> norm_num
    · split_ifs <;> norm_num

/-- The volume-spike category score is non-negative. -/
theorem scoreVolumeSpike_nonneg (vol : Option ℚ) :
    0 ≤ scoreVolumeSpike vol := by
  unfold scoreVolumeSpike
  rcases vol with _ | ratio
  · norm_num
  · dsimp only
    split_ifs <;> norm_num

/-- The Greeks placeholder score is non-negative. -/
theorem scoreOptionGreeks_nonneg : 0 ≤ scoreOptionGreeks := by
  unfold scoreOptionGreeks
  norm_num

/-- The per-detector category loop only ever adds positive scores. -/
theorem strategyCategoryTotal_nonneg (rs : List StrategyResult)
    (used : List String) : 0 ≤ strategyCategoryTotal rs used := by
  induction rs generalizing used with
  | nil => exact le_refl 0
  | cons r t ih =>
      unfold strategyCategoryTotal
      split_ifs with hpos
      · rcases hk : getCategoryKey r.strategyName with _ | k
        · exact ih used
        · dsimp only
          split_ifs with hused
          · exact ih used
          · have := ih (k :: used)
            linarith
      · exact ih used

/-- C4: the composite confidence total is always within [0, 100] — every
category contributes a non-negative score and the sum is clamped at 100 —
and consequently every emitted AggregatedSignal carries a
`confidenceScore` within [0, 100]. -/
theorem confidenceScore_bounds :
    (∀ (rs : List StrategyResult) (aday : ADayStatus) (oi : Option OIData)
        (vol : Option ℚ) (dir : Option Direction),
      0 ≤ (calculateConfidence rs aday oi vol dir).totalScore ∧
      (calculateConfidence rs aday oi vol dir).totalScore ≤ 100) ∧
    (∀ (rs : List StrategyResult) (aday : ADayStatus) (oi : Option OIData)
        (vol : Option ℚ) (sig : AggregatedSignal),
      aggregateSignals rs aday oi vol = some sig →
      0 ≤ sig.confidenceScore ∧ sig.confidenceScore ≤ 100) := by
  have hmain : ∀ (rs : List StrategyResult) (aday : ADayStatus)
      (oi : Option OIData) (vol : Option ℚ) (dir : Option Direction),
      0 ≤ (calculateConfidence rs aday oi vol dir).totalScore ∧
      (calculateConfidence rs aday oi vol dir).totalScore ≤ 100 := by
    intro rs aday oi vol dir
    unfold calculateConfidence
    dsimp only
    constructor
    · refine le_min (by norm_num) ?_
      have h1 := scoreAdayAlignment_nonneg aday dir
      have h2 := strategyCategoryTotal_nonneg rs []
      have h3 := scoreOISupport_nonneg oi dir
      have h4 := scoreVolumeSpike_nonneg vol
      have h5 := scoreOptionGreeks_nonneg
      linarith
    · exact min_le_left _ _
  refine ⟨hmain, ?_⟩
  intro rs aday oi vol sig hsig
  obtain ⟨-, -, -, -, hconf, -⟩ := aggregateSignals_some_eq rs aday oi vol sig hsig
  rw [hconf]
  exact hmain _ _ _ _ _

/-- Evaluation witness for C4: the concrete emitted signal of the 75-point
batch has its confidence inside [0, 100]. -/
theorem confidenceScore_bounds_witness :
    aggregateSignals [vwapResultCE20] adayBullish (some oiSupportive)
        (some 2) = some aggregatedExample ∧
    0 ≤ aggregatedExample.confidenceScore ∧
    aggregatedExample.confidenceScore ≤ 100 := by
  have hagg : aggregateSignals [vwapResultCE20] adayBullish (some oiSupportive)
      (some 2) = some aggregatedExample := by
    simp [aggregateSignals, signalResultsOf, chooseDirection, directionScore,
      directionCount, calculateConfidence, scoreAdayAlignment,
      strategyCategoryTotal, getCategoryKey_vwap, qTruthy, scoreOISupport,
      scoreVolumeSpike, scoreOptionGreeks, MIN_CONFIDENCE_SCORE,
      vwapResultCE20, adayBullish, oiSupportive, primaryOf, pickHigher,
      aggregatedExample, List.filter]
    norm_num
  exact ⟨hagg, (confidenceScore_bounds.2 _ _ _ _ _ hagg).1,
    (confidenceScore_bounds.2 _ _ _ _ _ hagg).2⟩

/-- C2: whenever the composite confidence over the aligned results misses
the configured minimum (default 60), the aggregator emits nothing at all
for the tick — `meetsThreshold = false` means the total is strictly below
the minimum and `aggregateSignals` returns `none`. -/
theorem aggregateSignals_threshold_gate (rs : List StrategyResult)
    (aday : ADayStatus) (oi : Option OIData) (vol : Option ℚ)
    (hthr : (calculateConfidence (alignedResultsOf rs) aday oi vol
        (some (chooseDirection (signalResultsOf rs)))).meetsThreshold = false) :
    ((calculateConfidence (alignedResultsOf rs) aday oi vol
        (some (chooseDirection (signalResultsOf rs)))).totalScore <
      MIN_CONFIDENCE_SCORE) ∧
    MIN_CONFIDENCE_SCORE = 60 ∧
    aggregateSignals rs aday oi vol = none := by
  refine ⟨?_, rfl, ?_⟩
  · have hm : (calculateConfidence (alignedResultsOf rs) aday oi vol
        (some (chooseDirection (signalResultsOf rs)))).meetsThreshold =
        decide ((calculateConfidence (alignedResultsOf rs) aday oi vol
          (some (chooseDirection (signalResultsOf rs)))).totalScore ≥
          MIN_CONFIDENCE_SCORE) := rfl
    rw [hm] at hthr
    exact not_le.mp (of_decide_eq_false hthr)
  · unfold aggregateSignals
    dsimp only
    have hfold : List.filter
        (fun r => decide (r.signal = some (chooseDirection (signalResultsOf rs))))
        (signalResultsOf rs) = alignedResultsOf rs := rfl
    rw [hfold]
    by_cases h1 : (signalResultsOf rs).isEmpty
    · rw [if_pos h1]
    · rw [if_neg h1]
      by_cases h2 : directionCount (signalResultsOf rs) .BUY_CE = 0 ∧
          directionCount (signalResultsOf rs) .BUY_PE = 0
      · rw [if_pos h2]
      · rw [if_neg h2, if_pos (by rw [hthr]; simp)]

/-- Evaluation witness for C2: the 45-point batch (A-Day alignment 20 +
VWAP 20 + Greeks 5, no OI or volume data) misses the 60 threshold and the
aggregator emits nothing. -/
theorem aggregateSignals_threshold_gate_witness :
    (calculateConfidence (alignedResultsOf [vwapResultCE20]) adayBullish
        none none
        (some (chooseDirection (signalResultsOf [vwapResultCE20])))).meetsThreshold
      = false ∧
    aggregateSignals [vwapResultCE20] adayBullish none none = none := by
  have hthr : (calculateConfidence (alignedResultsOf [vwapResultCE20])
      adayBullish none none
      (some (chooseDirection (signalResultsOf [vwapResultCE20])))).meetsThreshold
      = false := by
    simp [calculateConfidence, alignedResultsOf, signalResultsOf,
      chooseDirection, directionScore, directionCount, scoreAdayAlignment,
      strategyCategoryTotal, getCategoryKey_vwap, scoreOISupport,
      scoreVolumeSpike, scoreOptionGreeks, MIN_CONFIDENCE_SCORE,
      vwapResultCE20, adayBullish, List.filter]
    norm_num
  exact ⟨hthr, (aggregateSignals_threshold_gate _ _ _ _ hthr).2.2⟩

/-- C1: an emitted signal's direction is the dominant one — higher summed
native score first, detector count on a score tie, BUY_CE on a full tie;
only aligned results survive into the signal's strategy data; the
primary strategy is an aligned result of maximal native score; and the
spec scenario (BUY_CE scores 8 and 5 against one BUY_PE score 20) picks
BUY_PE despite the 2-to-1 count. -/
theorem aggregateSignals_direction_rule (rs : List StrategyResult)
    (aday : ADayStatus) (oi : Option OIData) (vol : Option ℚ)
    (sig : AggregatedSignal)
    (hscores : ∀ r ∈ rs, 0 ≤ r.score)
    (hsig : aggregateSignals rs aday oi vol = some sig) :
    (sig.direction = chooseDirection (signalResultsOf rs)) ∧
    (directionScore (signalResultsOf rs) .BUY_CE >
        directionScore (signalResultsOf rs) .BUY_PE →
      sig.direction = .BUY_CE) ∧
    (directionScore (signalResultsOf rs) .BUY_PE >
        directionScore (signalResultsOf rs) .BUY_CE →
      sig.direction = .BUY_PE) ∧
    (directionScore (signalResultsOf rs) .BUY_CE =
        directionScore (signalResultsOf rs) .BUY_PE →
      (directionCount (signalResultsOf rs) .BUY_CE ≥
          directionCount (signalResultsOf rs) .BUY_PE →
        sig.direction = .BUY_CE) ∧
      (directionCount (signalResultsOf rs) .BUY_PE >
          directionCount (signalResultsOf rs) .BUY_CE →
        sig.direction = .BUY_PE)) ∧
    (sig.strategyData =
      (alignedResultsOf rs).map (fun r => (r.strategyName, r.score))) ∧
    (∃ p, p ∈ alignedResultsOf rs ∧
      primaryOf (alignedResultsOf rs) = some p ∧
      sig.primaryStrategy =
        (if p.strategyName ≠ "" then p.strategyName else "COMBINED") ∧
      ∀ r ∈ alignedResultsOf rs, r.score ≤ p.score) ∧
    chooseDirection [orbResultCE8, vwapResultCE5, srResultPE20] = .BUY_PE := by
  obtain ⟨hempty, hthr, hdir, hdata, hconf, hprim⟩ :=
    aggregateSignals_some_eq rs aday oi vol sig hsig
  have hne := alignedResultsOf_ne_nil rs hempty hscores
  obtain ⟨p, hp, hpm, hpmax⟩ := primaryOf_spec _ hne
  refine ⟨hdir, ?_, ?_, ?_, hdata, ⟨p, hpm, hp, ?_, hpmax⟩, ?_⟩
  · intro h
    rw [hdir, chooseDirection_CE_of_score _ h]
  · intro h
    rw [hdir, chooseDirection_PE_of_score _ h]
  · intro h
    exact ⟨fun hc => by rw [hdir, (chooseDirection_tie _ h).1 hc],
      fun hc => by rw [hdir, (chooseDirection_tie _ h).2 hc]⟩
  · rw [hprim, hp]
  · simp [chooseDirection, directionScore, directionCount, orbResultCE8,
      vwapResultCE5, srResultPE20, List.filter]
    norm_num

/-- Evaluation witness for C1: the 75-point batch emits a signal whose
direction is the chosen dominant direction. -/
theorem aggregateSignals_direction_rule_witness :
    (∀ r ∈ [vwapResultCE20], 0 ≤ r.score) ∧
    aggregateSignals [vwapResultCE20] adayBullish (some oiSupportive)
      (some 2) = some aggregatedExample ∧
    aggregatedExample.direction =
      chooseDirection (signalResultsOf [vwapResultCE20]) := by
  have hs : ∀ r ∈ [vwapResultCE20], 0 ≤ r.score := by
    intro r hr
    rw [List.mem_singleton] at hr
    subst hr
    norm_num [vwapResultCE20]
  have hagg : aggregateSignals [vwapResultCE20] adayBullish (some oiSupportive)
      (some 2) = some aggregatedExample := by
    simp [aggregateSignals, signalResultsOf, chooseDirection, directionScore,
      directionCount, calculateConfidence, scoreAdayAlignment,
      strategyCategoryTotal, getCategoryKey_vwap, qTruthy, scoreOISupport,
      scoreVolumeSpike, scoreOptionGreeks, MIN_CONFIDENCE_SCORE,
      vwapResultCE20, adayBullish, oiSupportive, primaryOf, pickHigher,
      aggregatedExample, List.filter]
    norm_num
  exact ⟨hs, hagg,
    (aggregateSignals_direction_rule _ _ _ _ _ hs hagg).1⟩

end Demo
